import Mathlib

/-!
Shallow embedding of the uniqlo-sale-notifier core (src/database.py,
src/monitor.py, src/uniqlo_api.py).

The SQLite tables are modelled per product: the `price_history` table as a
`List PriceRow` (append-only), the `product_notifications` table as an
`Option LedgerRecord` (at most one row per product; a table-level view
`List (Nat × LedgerRecord)` keyed by product id is used where a claim talks
about the delete query).  Calendar dates are integers (day numbers), so
`yesterday = today - 1`; `CURRENT_TIMESTAMP` on observation rows is a `Nat`
passed in explicitly.  Prices are `Int` (smallest currency unit, as in the
source).  Network fetches and exceptions are modelled with `Except`.
String formatting (size-code labels, Markdown messages) is outside the
model, matching the spec's own exclusion of formatting helpers.
-/

namespace UniqloSaleNotifier

/-- Observation row, as written by `Database.save_price_history`
(src/database.py lines 182-204): one row per variant per check, with the
columns the detection queries read. -/
structure PriceRow where
  l2_id : String
  size_code : String
  color_code : String
  store_id : String
  store_name : String
  base_price : Int
  promo_price : Int
  is_on_sale : Bool
  checked_at : Nat
deriving DecidableEq

/-- Append-only insert of `Database.save_price_history`. -/
def save_price_history (history : List PriceRow) (row : PriceRow) : List PriceRow :=
  history ++ [row]

/-- Insert a timestamp into a strictly descending duplicate-free list,
keeping it strictly descending and duplicate-free.  Used to model
`SELECT DISTINCT checked_at ... ORDER BY checked_at DESC`. -/
def insertDescNodup (t : Nat) : List Nat → List Nat
  | [] => [t]
  | x :: xs =>
    if x < t then t :: x :: xs
    else if t = x then x :: xs
    else x :: insertDescNodup t xs

/-- Distinct `checked_at` values of the rows, most recent first
(`SELECT DISTINCT checked_at ... ORDER BY checked_at DESC`). -/
def distinctTimesDesc (rows : List PriceRow) : List Nat :=
  rows.foldr (fun r acc => insertDescNodup r.checked_at acc) []

/-- Embedding of `Database.has_price_history` (src/database.py lines
272-284): `COUNT(*) > 0` over the product's rows. -/
def has_price_history (rows : List PriceRow) : Bool :=
  decide (0 < rows.length)

/-- Embedding of `Database.was_product_on_sale` (src/database.py lines
286-319): take the two most recent distinct `checked_at` values
(`LIMIT 2`); if fewer than two exist return false; otherwise report
whether any row at the second most recent time (`times[1]`) has
`is_on_sale = 1`. -/
def was_product_on_sale (rows : List PriceRow) : Bool :=
  match (distinctTimesDesc rows).take 2 with
  | _ :: previous_check_time :: _ =>
    decide (0 < (rows.countP
      (fun r => r.checked_at == previous_check_time && r.is_on_sale)))
  | _ => false

/-- Modelled from the spec (section 4.1 step 1), for comparison with the
source's `was_product_on_sale`: true iff, among the most recent previously
recorded observation batch — the latest distinct timestamp present in the
store at read time, the read happening before the current check writes its
own batch — at least one variant had `on_sale = true`; false when no prior
batch exists. -/
def spec_was_on_sale (rows : List PriceRow) : Bool :=
  match distinctTimesDesc rows with
  | [] => false
  | t :: _ => rows.any (fun r => r.checked_at == t && r.is_on_sale)

/-- Row of the `product_notifications` table (one row per product):
`notified_at` reduced to its calendar date (the queries only use
`DATE(notified_at)`), `last_promo_price`, `consecutive_days`. -/
structure LedgerRecord where
  notified_date : Int
  last_promo_price : Int
  consecutive_days : Nat
deriving DecidableEq

/-- Result dictionary of `Database.get_product_notification_info`
(src/database.py lines 321-345). -/
structure NotifInfo where
  consecutive_days : Nat
  last_promo_price : Option Int
  last_date : Option Int
deriving DecidableEq

/-- Embedding of `Database.get_product_notification_info`: when a row
exists, `consecutive_days` is `row[0] or 1` (Python maps a stored 0 to 1);
when no row exists the info is `(0, None, None)`. -/
def get_product_notification_info (ledger : Option LedgerRecord) : NotifInfo :=
  match ledger with
  | some r =>
    { consecutive_days := if r.consecutive_days = 0 then 1 else r.consecutive_days
      last_promo_price := some r.last_promo_price
      last_date := some r.notified_date }
  | none =>
    { consecutive_days := 0
      last_promo_price := none
      last_date := none }

/-- Reason strings returned by `Database.should_send_notification`. -/
inductive Reason where
  | first_notification
  | already_notified_today
  | new_sale_after_gap
  | max_3_days_same_price
  | price_dropped_reset
  | max_3_days_reached
  | same_price_continue
  | price_increased
deriving DecidableEq

/-- Embedding of `Database.should_send_notification` (src/database.py
lines 347-397).  The `none` ledger case is the Python `last_date is None`
branch; for an existing row, `last_date` and `last_promo_price` are the
row's fields and `consecutive_days` goes through
`get_product_notification_info` (0 mapped to 1). -/
def should_send_notification (ledger : Option LedgerRecord) (today : Int)
    (current_promo_price : Int) : Bool × Reason :=
  match ledger with
  | none => (true, Reason.first_notification)
  | some r =>
    let consecutive_days := (get_product_notification_info (some r)).consecutive_days
    if r.notified_date = today then (false, Reason.already_notified_today)
    else if ¬ (r.notified_date = today - 1) then (true, Reason.new_sale_after_gap)
    else if 3 ≤ consecutive_days then
      if r.last_promo_price = current_promo_price then (false, Reason.max_3_days_same_price)
      else if current_promo_price < r.last_promo_price then (true, Reason.price_dropped_reset)
      else (false, Reason.max_3_days_reached)
    else if r.last_promo_price = current_promo_price then (true, Reason.same_price_continue)
    else if current_promo_price < r.last_promo_price then (true, Reason.price_dropped_reset)
    else (false, Reason.price_increased)

/-- Embedding of `Database.mark_product_notification_sent` (src/database.py
lines 399-438): re-derive the new `consecutive_days` from the stored state
(prior + 1 only on a consecutive day with the same price, else 1) and
upsert the single row with today's date and the given price. -/
def mark_product_notification_sent (ledger : Option LedgerRecord) (today : Int)
    (promo_price : Int) : Option LedgerRecord :=
  let new_consecutive_days :=
    match ledger with
    | none => 1
    | some r =>
      if r.notified_date = today - 1 then
        if r.last_promo_price = promo_price then
          (get_product_notification_info (some r)).consecutive_days + 1
        else 1
      else 1
  some { notified_date := today, last_promo_price := promo_price,
         consecutive_days := new_consecutive_days }

/-- Table-level view of `product_notifications`, keyed by product id
(the `product_id` column is UNIQUE). -/
def lookup_record (tbl : List (Nat × LedgerRecord)) (pid : Nat) :
    Option LedgerRecord :=
  (tbl.find? (fun e => e.1 == pid)).map (fun e => e.2)

/-- Embedding of `Database.clear_product_notification_flag`
(src/database.py lines 440-451): `DELETE FROM product_notifications WHERE
product_id = ?`. -/
def clear_product_notification_flag (tbl : List (Nat × LedgerRecord))
    (pid : Nat) : List (Nat × LedgerRecord) :=
  tbl.filter (fun e => !(e.1 == pid))

/-- Consecutive-day counter of an optional ledger row (0 when absent),
used to state the counter invariant. -/
def ledger_days : Option LedgerRecord → Nat
  | none => 0
  | some r => r.consecutive_days

/-- Variant dictionary built by `UniqloAPI.parse_product_data` and consumed
by `ProductMonitor.check_product`.  The size-name label and the
store-validation bookkeeping field are formatting/bookkeeping only and are
not modelled; `store_id` is empty at parse time and set by the monitor. -/
structure Variant where
  l2_id : String
  size_code : String
  color_code : String
  store_id : String
  store_name : String
  base_price : Int
  promo_price : Int
  is_on_sale : Bool
  stock_status : String
  stock_quantity : Nat
deriving DecidableEq

/-- Price entry of the vendor feed for one variant:
`prices[l2_id].base.value` and `prices[l2_id].promo.value`. -/
structure PriceInfo where
  base : Int
  promo : Int
deriving DecidableEq

/-- Stock entry of the vendor feed for one variant:
`stocks[l2_id].statusCode` and `stocks[l2_id].quantity`. -/
structure StockInfo where
  statusCode : String
  quantity : Nat
deriving DecidableEq

/-- One element of the feed's `l2s` array: variant key, resolved size and
color display codes, and the `sales` flag. -/
structure L2Entry where
  l2Id : String
  size_code : String
  color_code : String
  sales : Bool
deriving DecidableEq

/-- Dictionary lookup (`dict.get(key)`) over an association list. -/
def alookup {β : Type} (l : List (String × β)) (k : String) : Option β :=
  (l.find? (fun e => e.1 == k)).map (fun e => e.2)

/-- Embedding of `UniqloAPI.parse_product_data` (src/uniqlo_api.py lines
338-454): for each `l2s` entry take the `sales` flag, the base price
(default 0 when absent), the promo price when on sale and otherwise the
base price, and the stock status/quantity (defaults empty/0); keep the
variant only when `stock_quantity > 0` and the status is `IN_STOCK` or
`LOW_STOCK`. -/
def parse_product_data (l2s : List L2Entry) (prices : List (String × PriceInfo))
    (stocks : List (String × StockInfo)) (store_name : String) : List Variant :=
  l2s.filterMap (fun l2 =>
    let is_on_sale := l2.sales
    let base_price := match alookup prices l2.l2Id with
      | some p => p.base
      | none => 0
    let promo_price := if is_on_sale then
        (match alookup prices l2.l2Id with
          | some p => p.promo
          | none => 0)
      else base_price
    let stock_status := match alookup stocks l2.l2Id with
      | some s => s.statusCode
      | none => ""
    let stock_quantity := match alookup stocks l2.l2Id with
      | some s => s.quantity
      | none => 0
    if 0 < stock_quantity ∧ (stock_status = "IN_STOCK" ∨ stock_status = "LOW_STOCK") then
      some { l2_id := l2.l2Id
             size_code := l2.size_code
             color_code := l2.color_code
             store_id := ""
             store_name := store_name
             base_price := base_price
             promo_price := promo_price
             is_on_sale := is_on_sale
             stock_status := stock_status
             stock_quantity := stock_quantity }
    else none)

/-- Sale filter of `ProductMonitor.check_product` (src/monitor.py line
189): variants with `is_on_sale and base_price > promo_price`.  The code
groups these by store; the count and the price minimum used below are
grouping-invariant, so the flat list is kept. -/
def saleVariants (vs : List Variant) : List Variant :=
  vs.filter (fun v => decide (v.is_on_sale = true ∧ v.promo_price < v.base_price))

/-- Lowest promo price over a list of variants
(`min(v['promo_price'] for v in all_sale_variants)`); only meaningful on a
non-empty list. -/
def lowest_promo_price : List Variant → Int
  | [] => 0
  | v :: vs => vs.foldl (fun acc w => min acc w.promo_price) v.promo_price

/-- Observation row written for a variant in the current check's batch
(src/monitor.py lines 176-186), all rows of the batch sharing the check
timestamp. -/
def price_row_of_variant (v : Variant) (now : Nat) : PriceRow :=
  { l2_id := v.l2_id
    size_code := v.size_code
    color_code := v.color_code
    store_id := v.store_id
    store_name := v.store_name
    base_price := v.base_price
    promo_price := v.promo_price
    is_on_sale := v.is_on_sale
    checked_at := now }

/-- Per-product durable state read and written by one check: the
observation history and the notification-ledger row. -/
structure ProductState where
  history : List PriceRow
  ledger : Option LedgerRecord
deriving DecidableEq

/-- Structured result dictionary returned by
`ProductMonitor.check_product`. -/
structure CheckResult where
  status : String
  message : Option String
  has_sale : Option Bool
  online_available : Option Bool
deriving DecidableEq

/-- Decision core of `ProductMonitor.check_product` (src/monitor.py lines
114-253), after the per-store fetches produced `all_variants`: on an empty
batch return the out-of-stock result without touching the state; otherwise
read `was_product_on_sale` before appending the new batch, clear the
ledger when a sale ended, and on a sale send a notification and mark the
ledger only when it is a new sale and the throttle approves.  Returns the
new state, the result, and whether a sale notification was dispatched. -/
def check_product_core (st : ProductState) (all_variants : List Variant)
    (now : Nat) (today : Int) (online_available : Bool) :
    ProductState × CheckResult × Bool :=
  if all_variants = [] then
    (st,
     { status := "out_of_stock"
       message := some "Produk tidak tersedia di semua toko"
       has_sale := none
       online_available := some online_available },
     false)
  else
    let was_on_sale := if has_price_history st.history = true then
        was_product_on_sale st.history
      else false
    let history2 := st.history ++ all_variants.map (fun v => price_row_of_variant v now)
    let sale_vs := saleVariants all_variants
    let total_sale_variants := sale_vs.length
    let ledger2 := if was_on_sale = true ∧ total_sale_variants = 0 then none else st.ledger
    if 0 < total_sale_variants then
      let is_new_sale := !was_on_sale
      let lowest := lowest_promo_price sale_vs
      let sr := should_send_notification ledger2 today lowest
      if is_new_sale = true ∧ sr.1 = true then
        ({ history := history2
           ledger := mark_product_notification_sent ledger2 today lowest },
         { status := "success", message := none
           has_sale := some true, online_available := none },
         true)
      else
        ({ history := history2, ledger := ledger2 },
         { status := "success", message := none
           has_sale := some true, online_available := none },
         false)
    else
      ({ history := history2, ledger := ledger2 },
       { status := "success", message := none
         has_sale := some false, online_available := none },
       false)

/-- Per-store aggregation loop of `check_product` (src/monitor.py lines
52-112) with each store's fetch-and-validate outcome given as an `Except`:
a successful store contributes its variants, a failing store is logged and
skipped (`continue`). -/
def collect_store_variants (stores : List (Except String (List Variant))) :
    List Variant :=
  stores.foldl (fun acc r =>
    match r with
    | Except.ok vs => acc ++ vs
    | Except.error _ => acc) []

/-- Outermost exception handler of `check_product` (src/monitor.py lines
19 and 255-257): a body that raises is surfaced as a structured result
with status `error` and the exception message, never propagated. -/
def check_product_result (body : Except String CheckResult) : CheckResult :=
  match body with
  | Except.ok r => r
  | Except.error msg =>
    { status := "error", message := some msg
      has_sale := none, online_available := none }

/-- Concrete observation row used by the concrete-input theorems: one
on-sale variant recorded at check time 1. -/
def sampleSaleRow : PriceRow :=
  { l2_id := "09055426"
    size_code := "003"
    color_code := "00"
    store_id := "113757"
    store_name := "Store A"
    base_price := 299000
    promo_price := 199000
    is_on_sale := true
    checked_at := 1 }

/-- Two-batch history whose earlier batch (time 1) is on sale, so the
source's `was_product_on_sale` returns true on it. -/
def prior_rows : List PriceRow :=
  [ sampleSaleRow,
    { l2_id := "09055426"
      size_code := "003"
      color_code := "00"
      store_id := "113757"
      store_name := "Store A"
      base_price := 299000
      promo_price := 199000
      is_on_sale := true
      checked_at := 2 } ]

/-- Concrete well-formed feed: one on-sale variant, low stock quantity 5. -/
def sample_l2s : List L2Entry :=
  [{ l2Id := "v1", size_code := "004", color_code := "00", sales := true }]

/-- Prices for `sample_l2s`: base 300000, promo 200000. -/
def sample_prices : List (String × PriceInfo) :=
  [("v1", { base := 300000, promo := 200000 })]

/-- Stocks for `sample_l2s`: LOW_STOCK with quantity 5. -/
def sample_stocks : List (String × StockInfo) :=
  [("v1", { statusCode := "LOW_STOCK", quantity := 5 })]

/-- The variant `parse_product_data` produces from the sample feed. -/
def sample_variant : Variant :=
  { l2_id := "v1"
    size_code := "004"
    color_code := "00"
    store_id := ""
    store_name := "Store A"
    base_price := 300000
    promo_price := 200000
    is_on_sale := true
    stock_status := "LOW_STOCK"
    stock_quantity := 5 }

/-- Concrete malformed feed: `sales = true` but the promo price 250000
exceeds the base price 100000, in stock. -/
def malformed_l2s : List L2Entry :=
  [{ l2Id := "m1", size_code := "003", color_code := "00", sales := true }]

/-- Prices for `malformed_l2s`: promo above base. -/
def malformed_prices : List (String × PriceInfo) :=
  [("m1", { base := 100000, promo := 250000 })]

/-- Stocks for `malformed_l2s`: IN_STOCK with quantity 3. -/
def malformed_stocks : List (String × StockInfo) :=
  [("m1", { statusCode := "IN_STOCK", quantity := 3 })]

/-- Feed with the sale flag off, used to witness the price equality for
variants that are not on sale. -/
def offsale_l2s : List L2Entry :=
  [{ l2Id := "v2", size_code := "003", color_code := "00", sales := false }]

/-- Prices for `offsale_l2s`. -/
def offsale_prices : List (String × PriceInfo) :=
  [("v2", { base := 150000, promo := 90000 })]

/-- Stocks for `offsale_l2s`. -/
def offsale_stocks : List (String × StockInfo) :=
  [("v2", { statusCode := "IN_STOCK", quantity := 2 })]

/-- The variant `parse_product_data` produces from the off-sale feed. -/
def offsale_variant : Variant :=
  { l2_id := "v2"
    size_code := "003"
    color_code := "00"
    store_id := ""
    store_name := "Store A"
    base_price := 150000
    promo_price := 150000
    is_on_sale := false
    stock_status := "IN_STOCK"
    stock_quantity := 2 }


/-- Claim C1: the source's `was_product_on_sale`, read before the current
check writes its batch, diverges from spec section 4.1 step 1 on a history
holding exactly one prior batch whose variant is on sale: the code needs
two distinct timestamps and inspects the second most recent, so it returns
false, while the spec's reading of the most recent prior batch returns
true. -/
theorem c1_previous_batch_divergence :
    was_product_on_sale [sampleSaleRow] = false
    ∧ spec_was_on_sale [sampleSaleRow] = true := by
  decide


/-- Claim C2: the throttle policy on an existing ledger row.  A row dated
neither today nor yesterday approves with `new_sale_after_gap` at every
price; a row dated yesterday with at least 3 consecutive days refuses an
equal price (`max_3_days_same_price`), approves a lower price
(`price_dropped_reset`) and refuses a higher price (`max_3_days_reached`);
a row dated yesterday with fewer than 3 consecutive days approves an equal
price (`same_price_continue`), approves a lower price
(`price_dropped_reset`) and refuses a higher price (`price_increased`). -/
theorem c2_throttle_policy_cases (r : LedgerRecord) (today p : Int) :
    (r.notified_date ≠ today → r.notified_date ≠ today - 1 →
      should_send_notification (some r) today p = (true, Reason.new_sale_after_gap))
    ∧ (r.notified_date = today - 1 → 3 ≤ r.consecutive_days →
        should_send_notification (some r) today r.last_promo_price
            = (false, Reason.max_3_days_same_price)
        ∧ (p < r.last_promo_price →
            should_send_notification (some r) today p = (true, Reason.price_dropped_reset))
        ∧ (r.last_promo_price < p →
            should_send_notification (some r) today p = (false, Reason.max_3_days_reached)))
    ∧ (r.notified_date = today - 1 → r.consecutive_days < 3 →
        should_send_notification (some r) today r.last_promo_price
            = (true, Reason.same_price_continue)
        ∧ (p < r.last_promo_price →
            should_send_notification (some r) today p = (true, Reason.price_dropped_reset))
        ∧ (r.last_promo_price < p →
            should_send_notification (some r) today p = (false, Reason.price_increased))) := by
  refine ⟨fun h1 h2 => ?_, fun hy hd => ?_, fun hy hd => ?_⟩
  · simp [should_send_notification, get_product_notification_info, h1, h2]
  · have hne : r.notified_date ≠ today := by omega
    have h0 : r.consecutive_days ≠ 0 := by omega
    refine ⟨?_, fun hlt => ?_, fun hgt => ?_⟩
    · simp [should_send_notification, get_product_notification_info, hne, hy, h0, hd]
    · have hne2 : r.last_promo_price ≠ p := by omega
      simp [should_send_notification, get_product_notification_info, hne, hy, h0, hd,
        hne2, hlt]
    · have hne2 : r.last_promo_price ≠ p := by omega
      have hnlt : ¬ (p < r.last_promo_price) := by omega
      simp [should_send_notification, get_product_notification_info, hne, hy, h0, hd,
        hne2, hnlt]
  · have hne : r.notified_date ≠ today := by omega
    have h3 : ¬ (3 ≤ (if r.consecutive_days = 0 then 1 else r.consecutive_days)) := by
      split <;> omega
    refine ⟨?_, fun hlt => ?_, fun hgt => ?_⟩
    · simp [should_send_notification, get_product_notification_info, hne, hy, h3]
    · have hne2 : r.last_promo_price ≠ p := by omega
      simp [should_send_notification, get_product_notification_info, hne, hy, h3,
        hne2, hlt]
    · have hne2 : r.last_promo_price ≠ p := by omega
      have hnlt : ¬ (p < r.last_promo_price) := by omega
      simp [should_send_notification, get_product_notification_info, hne, hy, h3,
        hne2, hnlt]

/-- Witness for C2: the gap, capped and under-cap branches evaluated on
concrete ledger rows (dates 2 and 4 against today 5, prices around 100). -/
theorem c2_throttle_policy_cases_witness :
    should_send_notification (some ⟨2, 100, 1⟩) 5 90 = (true, Reason.new_sale_after_gap)
    ∧ should_send_notification (some ⟨4, 100, 3⟩) 5 100 = (false, Reason.max_3_days_same_price)
    ∧ should_send_notification (some ⟨4, 100, 2⟩) 5 100 = (true, Reason.same_price_continue)
    ∧ should_send_notification (some ⟨4, 100, 3⟩) 5 90 = (true, Reason.price_dropped_reset)
    ∧ should_send_notification (some ⟨4, 100, 3⟩) 5 110 = (false, Reason.max_3_days_reached)
    ∧ should_send_notification (some ⟨4, 100, 2⟩) 5 90 = (true, Reason.price_dropped_reset)
    ∧ should_send_notification (some ⟨4, 100, 2⟩) 5 110 = (false, Reason.price_increased) :=
  ⟨(c2_throttle_policy_cases ⟨2, 100, 1⟩ 5 90).1 (by decide) (by decide),
   ((c2_throttle_policy_cases ⟨4, 100, 3⟩ 5 100).2.1 (by decide) (by decide)).1,
   ((c2_throttle_policy_cases ⟨4, 100, 2⟩ 5 100).2.2 (by decide) (by decide)).1,
   ((c2_throttle_policy_cases ⟨4, 100, 3⟩ 5 90).2.1 (by decide) (by decide)).2.1 (by decide),
   ((c2_throttle_policy_cases ⟨4, 100, 3⟩ 5 110).2.1 (by decide) (by decide)).2.2 (by decide),
   ((c2_throttle_policy_cases ⟨4, 100, 2⟩ 5 90).2.2 (by decide) (by decide)).2.1 (by decide),
   ((c2_throttle_policy_cases ⟨4, 100, 2⟩ 5 110).2.2 (by decide) (by decide)).2.2 (by decide)⟩

/-- Claim C3: a ledger row whose last notified date equals today makes
`should_send_notification` refuse with `already_notified_today` at every
candidate price. -/
theorem c3_already_notified_today (r : LedgerRecord) (today p : Int)
    (h : r.notified_date = today) :
    should_send_notification (some r) today p = (false, Reason.already_notified_today) := by
  simp [should_send_notification, get_product_notification_info, h]

/-- Witness for C3: a row dated 5 queried on day 5 at price 42. -/
theorem c3_already_notified_today_witness :
    should_send_notification (some ⟨5, 100, 1⟩) 5 42
      = (false, Reason.already_notified_today) :=
  c3_already_notified_today ⟨5, 100, 1⟩ 5 42 (by decide)

/-- Claim C4: clearing a product's ledger row deletes it entirely, and a
subsequent `should_send_notification` at any candidate price on any day
approves with `first_notification`. -/
theorem c4_clear_ledger_then_first (tbl : List (Nat × LedgerRecord))
    (pid : Nat) (today p : Int) :
    lookup_record (clear_product_notification_flag tbl pid) pid = none
    ∧ should_send_notification
        (lookup_record (clear_product_notification_flag tbl pid) pid) today p
        = (true, Reason.first_notification) := by
  have h : lookup_record (clear_product_notification_flag tbl pid) pid = none := by
    have h2 : ∀ x ∈ tbl.filter (fun e => !(e.1 == pid)), ¬ ((x.1 == pid) = true) := by
      intro x hx
      have h3 := (List.mem_filter.mp hx).2
      simpa using h3
    unfold lookup_record clear_product_notification_flag
    rw [List.find?_eq_none.mpr h2]
    rfl
  exact ⟨h, by rw [h]; rfl⟩


/-- Claim C5, counterexample: on a zero-variant check over a history whose
latest batch (time 1) is on sale, `check_product` leaves the observation
history untouched — no batch at the check's time 2 appears, and the next
cycle's most-recent-prior-batch comparison still sees the old on-sale
batch instead of this check — refuting the claim that the empty batch is
still recorded; only the `out_of_stock` report holds. -/
theorem c5_counterexample :
    (check_product_core ⟨[sampleSaleRow], none⟩ [] 2 5 false).1.history = [sampleSaleRow]
    ∧ distinctTimesDesc (check_product_core ⟨[sampleSaleRow], none⟩ [] 2 5 false).1.history
        = [1]
    ∧ spec_was_on_sale (check_product_core ⟨[sampleSaleRow], none⟩ [] 2 5 false).1.history
        = true
    ∧ (check_product_core ⟨[sampleSaleRow], none⟩ [] 2 5 false).2.1.status
        = "out_of_stock" := by
  decide

/-- Claim C5 as amended: when zero variants are available across all
tracked stores, `check_product` records no observation batch and performs
no state change at all — it returns before any price-history write — and
reports the distinct outcome `out_of_stock` enriched with online-store
availability, without dispatching a sale notification. -/
theorem c5_out_of_stock_records_nothing (st : ProductState) (now : Nat)
    (today : Int) (oa : Bool) :
    check_product_core st [] now today oa
      = (st,
         { status := "out_of_stock"
           message := some "Produk tidak tersedia di semua toko"
           has_sale := none
           online_available := some oa },
         false) := by
  rfl

/-- Claim C6: when the monitor's flow calls the ledger write only after
`should_send_notification` approved, the written row's `consecutive_days`
lies in [1,3]; the write increments the prior counter by one exactly on a
consecutive-day, same-price notification — whose prior (0-mapped-to-1)
counter the approval forces to be at most 2 — and resets it to 1 whenever
there is no prior row, a gap day, or a changed price. -/
theorem c6_consecutive_days_invariant (ledger : Option LedgerRecord) (today p : Int)
    (hsend : (should_send_notification ledger today p).1 = true) :
    1 ≤ ledger_days (mark_product_notification_sent ledger today p)
    ∧ ledger_days (mark_product_notification_sent ledger today p) ≤ 3
    ∧ (∀ r, ledger = some r → r.notified_date = today - 1 → r.last_promo_price = p →
        ledger_days (mark_product_notification_sent ledger today p)
          = (if r.consecutive_days = 0 then 1 else r.consecutive_days) + 1
        ∧ (if r.consecutive_days = 0 then 1 else r.consecutive_days) ≤ 2)
    ∧ (∀ r, ledger = some r → ¬ (r.notified_date = today - 1 ∧ r.last_promo_price = p) →
        ledger_days (mark_product_notification_sent ledger today p) = 1)
    ∧ (ledger = none → ledger_days (mark_product_notification_sent ledger today p) = 1) := by
  cases ledger with
  | none =>
    simp [mark_product_notification_sent, ledger_days]
  | some r =>
    by_cases hy : r.notified_date = today - 1
    · by_cases hp : r.last_promo_price = p
      · have hne : r.notified_date ≠ today := by omega
        have hd : (if r.consecutive_days = 0 then 1 else r.consecutive_days) ≤ 2 := by
          by_contra hcon
          have h3 : 3 ≤ (if r.consecutive_days = 0 then 1 else r.consecutive_days) := by
            omega
          simp [should_send_notification, get_product_notification_info, hne, hy, hp,
            h3] at hsend
        have hdays : ledger_days (mark_product_notification_sent (some r) today p)
            = (if r.consecutive_days = 0 then 1 else r.consecutive_days) + 1 := by
          simp [mark_product_notification_sent, ledger_days,
            get_product_notification_info, hy, hp]
        refine ⟨by omega, by omega, ?_, ?_, by intro hcon; simp at hcon⟩
        · intro r' hr' _ _
          injection hr' with he
          subst he
          exact ⟨hdays, hd⟩
        · intro r' hr' hcon
          injection hr' with he
          subst he
          exact absurd ⟨hy, hp⟩ hcon
      · have hdays : ledger_days (mark_product_notification_sent (some r) today p) = 1 := by
          simp [mark_product_notification_sent, ledger_days, hy, hp]
        refine ⟨by omega, by omega, ?_, ?_, by intro hcon; simp at hcon⟩
        · intro r' hr' _ hp'
          injection hr' with he
          subst he
          exact absurd hp' hp
        · intro r' hr' _
          exact hdays
    · have hdays : ledger_days (mark_product_notification_sent (some r) today p) = 1 := by
        simp [mark_product_notification_sent, ledger_days, hy]
      refine ⟨by omega, by omega, ?_, ?_, by intro hcon; simp at hcon⟩
      · intro r' hr' hy' _
        injection hr' with he
        subst he
        exact absurd hy' hy
      · intro r' hr' _
        exact hdays

/-- Witness for C6: an approved consecutive-day, same-price notification on
a row with counter 2 keeps the written counter in [1,3]. -/
theorem c6_consecutive_days_invariant_witness :
    1 ≤ ledger_days (mark_product_notification_sent (some ⟨4, 100, 2⟩) 5 100)
    ∧ ledger_days (mark_product_notification_sent (some ⟨4, 100, 2⟩) 5 100) ≤ 3 :=
  ⟨(c6_consecutive_days_invariant (some ⟨4, 100, 2⟩) 5 100 (by decide)).1,
   (c6_consecutive_days_invariant (some ⟨4, 100, 2⟩) 5 100 (by decide)).2.1⟩


/-- Folding `min` over promo prices never exceeds the initial value. -/
theorem foldl_min_promo_le_init (vs : List Variant) (a : Int) :
    vs.foldl (fun acc w => min acc w.promo_price) a ≤ a := by
  induction vs generalizing a with
  | nil => simp
  | cons w ws ih =>
    simp only [List.foldl_cons]
    exact le_trans (ih (min a w.promo_price)) (min_le_left _ _)

/-- Folding `min` over promo prices never exceeds any member's price. -/
theorem foldl_min_promo_le_mem (vs : List Variant) :
    ∀ (a : Int) (v : Variant), v ∈ vs →
      vs.foldl (fun acc w => min acc w.promo_price) a ≤ v.promo_price := by
  induction vs with
  | nil =>
    intro a v hv
    cases hv
  | cons w ws ih =>
    intro a v hv
    simp only [List.foldl_cons]
    rcases List.mem_cons.mp hv with h | h
    · subst h
      exact le_trans (foldl_min_promo_le_init ws _) (min_le_right _ _)
    · exact ih _ v h

/-- Folding `min` over promo prices reaches the initial value or some
member's price. -/
theorem foldl_min_promo_eq_mem (vs : List Variant) :
    ∀ (a : Int), vs.foldl (fun acc w => min acc w.promo_price) a = a
      ∨ ∃ v ∈ vs, vs.foldl (fun acc w => min acc w.promo_price) a = v.promo_price := by
  induction vs with
  | nil =>
    intro a
    exact Or.inl rfl
  | cons w ws ih =>
    intro a
    simp only [List.foldl_cons]
    rcases ih (min a w.promo_price) with h | ⟨v, hv, h⟩
    · rcases le_total a w.promo_price with hle | hle
      · exact Or.inl (by rw [h, min_eq_left hle])
      · exact Or.inr ⟨w, List.mem_cons_self w ws, by rw [h, min_eq_right hle]⟩
    · exact Or.inr ⟨v, List.mem_cons_of_mem w hv, h⟩

/-- On a non-empty list, `lowest_promo_price` is a lower bound of the promo
prices and is attained by some member. -/
theorem lowest_promo_price_spec (l : List Variant) (hne : l ≠ []) :
    (∀ v ∈ l, lowest_promo_price l ≤ v.promo_price)
    ∧ ∃ v ∈ l, v.promo_price = lowest_promo_price l := by
  cases l with
  | nil => exact absurd rfl hne
  | cons v vs =>
    constructor
    · intro w hw
      rcases List.mem_cons.mp hw with h | h
      · subst h
        exact foldl_min_promo_le_init vs _
      · exact foldl_min_promo_le_mem vs _ w h
    · rcases foldl_min_promo_eq_mem vs v.promo_price with h | ⟨w, hw, h⟩
      · exact ⟨v, List.mem_cons_self v vs, h.symm⟩
      · exact ⟨w, List.mem_cons_of_mem v hw, h.symm⟩

/-- Claim C7: every parsed variant is available (positive stock quantity
and status `IN_STOCK` or `LOW_STOCK`, enforced at parse time); the sale
variants are exactly the parsed variants that are on sale with base price
strictly above promo price (so an on-sale variant with equal prices, or
any zero-quantity variant, is excluded); and on a non-empty sale set the
lowest promo price is the minimum promo price over it. -/
theorem c7_sale_variant_characterization (l2s : List L2Entry)
    (prices : List (String × PriceInfo)) (stocks : List (String × StockInfo))
    (sname : String) :
    (∀ v ∈ parse_product_data l2s prices stocks sname,
      0 < v.stock_quantity
      ∧ (v.stock_status = "IN_STOCK" ∨ v.stock_status = "LOW_STOCK"))
    ∧ (∀ v, v ∈ saleVariants (parse_product_data l2s prices stocks sname)
        ↔ v ∈ parse_product_data l2s prices stocks sname
          ∧ v.is_on_sale = true ∧ v.promo_price < v.base_price)
    ∧ (saleVariants (parse_product_data l2s prices stocks sname) ≠ [] →
        (∀ v ∈ saleVariants (parse_product_data l2s prices stocks sname),
          lowest_promo_price (saleVariants (parse_product_data l2s prices stocks sname))
            ≤ v.promo_price)
        ∧ ∃ v ∈ saleVariants (parse_product_data l2s prices stocks sname),
            v.promo_price
              = lowest_promo_price
                  (saleVariants (parse_product_data l2s prices stocks sname))) := by
  refine ⟨?_, ?_, fun hne => lowest_promo_price_spec _ hne⟩
  · intro v hv
    simp only [parse_product_data, List.mem_filterMap] at hv
    obtain ⟨l2, _, hf⟩ := hv
    split at hf
    · rename_i hcond
      injection hf with hf
      subst hf
      exact hcond
    · exact absurd hf (by simp)
  · intro v
    simp [saleVariants, List.mem_filter, and_assoc]

/-- Witness for C7: the sample feed's single low-stock on-sale variant is
available, and the lowest promo price over its sale set is attained. -/
theorem c7_sale_variant_characterization_witness :
    (0 < sample_variant.stock_quantity
      ∧ (sample_variant.stock_status = "IN_STOCK"
          ∨ sample_variant.stock_status = "LOW_STOCK"))
    ∧ ((∀ v ∈ saleVariants (parse_product_data sample_l2s sample_prices sample_stocks
            "Store A"),
          lowest_promo_price (saleVariants (parse_product_data sample_l2s sample_prices
              sample_stocks "Store A")) ≤ v.promo_price)
        ∧ ∃ v ∈ saleVariants (parse_product_data sample_l2s sample_prices sample_stocks
            "Store A"),
            v.promo_price = lowest_promo_price (saleVariants (parse_product_data
              sample_l2s sample_prices sample_stocks "Store A"))) :=
  ⟨(c7_sale_variant_characterization sample_l2s sample_prices sample_stocks "Store A").1
      sample_variant (by decide),
   (c7_sale_variant_characterization sample_l2s sample_prices sample_stocks "Store A").2.2
      (by decide)⟩

/-- Claim C8, counterexample: on a malformed feed that reports `sales =
true` with promo price 250000 above base price 100000, `parse_product_data`
emits the variant with the promo price unclamped, so the claimed bound
promo ≤ base for on-sale variants fails. -/
theorem c8_counterexample :
    ¬ (∀ v ∈ parse_product_data malformed_l2s malformed_prices malformed_stocks "Store A",
        v.is_on_sale = true → v.promo_price ≤ v.base_price) := by
  decide

/-- Claim C8 as amended: every variant produced by `parse_product_data`
with `is_on_sale = false` has `promo_price = base_price`; when
`is_on_sale` is true the promo price is taken from the feed unchanged, so
no bound against the base price is guaranteed at parse time (the monitor's
sale filter later requires base price strictly above promo price). -/
theorem c8_offsale_price_equal (l2s : List L2Entry)
    (prices : List (String × PriceInfo)) (stocks : List (String × StockInfo))
    (sname : String) :
    ∀ v ∈ parse_product_data l2s prices stocks sname,
      v.is_on_sale = false → v.promo_price = v.base_price := by
  intro v hv hfalse
  simp only [parse_product_data, List.mem_filterMap] at hv
  obtain ⟨l2, _, hf⟩ := hv
  split at hf
  · injection hf with hf
    subst hf
    simp only at hfalse ⊢
    simp [hfalse]
  · exact absurd hf (by simp)

/-- Witness for C8's amended statement: the off-sale sample feed's variant
has promo price equal to base price. -/
theorem c8_offsale_price_equal_witness :
    offsale_variant.promo_price = offsale_variant.base_price :=
  c8_offsale_price_equal offsale_l2s offsale_prices offsale_stocks "Store A"
    offsale_variant (by decide) (by decide)

/-- Claim C9: failures are isolated.  A store whose fetch fails contributes
nothing to the batch while every other store's variants are kept
unchanged, and the outermost handler turns a raising body into the
structured `error` result instead of propagating, while a non-raising body
passes through. -/
theorem c9_error_isolation :
    (∀ (pre post : List (Except String (List Variant))) (e : String),
      collect_store_variants (pre ++ Except.error e :: post)
        = collect_store_variants (pre ++ post))
    ∧ (∀ msg, check_product_result (Except.error msg)
        = { status := "error", message := some msg
            has_sale := none, online_available := none })
    ∧ (∀ r, check_product_result (Except.ok r) = r) := by
  refine ⟨?_, fun msg => rfl, fun r => rfl⟩
  intro pre post e
  simp [collect_store_variants, List.foldl_append]


/-- Claim C10: `check_product` dispatches a sale notification and writes
the ledger only on a new sale.  When the history is non-empty, the
previous batch was on sale and sale variants are present, no notification
is dispatched and the ledger is unchanged — whatever the throttle would
answer; conversely any dispatched notification implies the product had no
history or was not on sale in the previous batch, sale variants are
present, and the throttle approved. -/
theorem c10_notify_only_on_new_sale (st : ProductState) (vs : List Variant)
    (now : Nat) (today : Int) (oa : Bool) :
    (st.history ≠ [] → was_product_on_sale st.history = true → saleVariants vs ≠ [] →
      (check_product_core st vs now today oa).2.2 = false
      ∧ (check_product_core st vs now today oa).1.ledger = st.ledger)
    ∧ ((check_product_core st vs now today oa).2.2 = true →
        (st.history = [] ∨ was_product_on_sale st.history = false)
        ∧ saleVariants vs ≠ []
        ∧ (should_send_notification st.ledger today
            (lowest_promo_price (saleVariants vs))).1 = true) := by
  constructor
  · intro hh hw hsv
    have hvs : vs ≠ [] := fun h => hsv (by simp [h, saleVariants])
    have hhist : has_price_history st.history = true := by
      simp [has_price_history, List.length_pos, hh]
    have h0 : (saleVariants vs).length ≠ 0 := by
      simpa [List.length_eq_zero] using hsv
    have hpos : 0 < (saleVariants vs).length := Nat.pos_of_ne_zero h0
    constructor <;> simp [check_product_core, hvs, hhist, hw, h0, hpos]
  · intro hnot
    by_cases hvs : vs = []
    · rw [hvs] at hnot
      simp [check_product_core] at hnot
    · by_cases hsv : saleVariants vs = []
      · have h0 : (saleVariants vs).length = 0 := by simp [hsv]
        simp [check_product_core, hvs, h0] at hnot
      · have h0 : (saleVariants vs).length ≠ 0 := by
          simpa [List.length_eq_zero] using hsv
        have hpos : 0 < (saleVariants vs).length := Nat.pos_of_ne_zero h0
        by_cases hh : st.history = []
        · have hhist : has_price_history st.history = false := by
            simp [has_price_history, hh]
          simp only [check_product_core] at hnot
          simp [hvs, hhist, hpos, h0] at hnot
          split at hnot
          · rename_i hc
            exact ⟨Or.inl hh, hsv, hc⟩
          · simp at hnot
        · have hhist : has_price_history st.history = true := by
            simp [has_price_history, List.length_pos, hh]
          by_cases hw : was_product_on_sale st.history = true
          · simp [check_product_core, hvs, hhist, hw, hpos, h0] at hnot
          · have hw' : was_product_on_sale st.history = false := by
              simpa using hw
            simp [check_product_core, hvs, hhist, hw', hpos, h0] at hnot
            split at hnot
            · rename_i hc
              exact ⟨Or.inr hw', hsv, hc⟩
            · simp at hnot

/-- Witness for C10: a product already on sale in the previous batch (the
two-batch history) with a current on-sale variant dispatches nothing and
leaves its ledger row untouched. -/
theorem c10_notify_only_on_new_sale_witness :
    (check_product_core ⟨prior_rows, some ⟨4, 100, 2⟩⟩ [sample_variant] 3 5 false).2.2
        = false
    ∧ (check_product_core ⟨prior_rows, some ⟨4, 100, 2⟩⟩ [sample_variant] 3 5 false).1.ledger
        = some ⟨4, 100, 2⟩ :=
  (c10_notify_only_on_new_sale ⟨prior_rows, some ⟨4, 100, 2⟩⟩ [sample_variant] 3 5 false).1
    (by decide) (by decide) (by decide)

end UniqloSaleNotifier
